import Mathlib

/-!
Verification of the health-check and report-generation scripts of the
kubeadm_ansible repository.

The embedding covers the two Python sources:
  * `scripts/health-check.py` (class `K8sHealthManager`)
  * `roles/cluster_health_reporter/files/generate_health_report.py`
    (class `ClusterHealthReporter`)

Python strings are modelled as Lean `String` (or `List Char` where the
code slices/measures by code points, which is exactly Python's `len`/`[:n]`
semantics), numeric metric values as `ℚ` (the comparisons performed by the
code are against the exactly-representable constants 90, 75, 80, 70, 85,
so rational and IEEE-double comparison agree at every input the code can
receive), and HTTP interactions as an explicit outcome datatype consumed
by the functions that the scripts wrap around `requests`.
-/

/-- `health_report["overall_status"]` in `scripts/health-check.py` takes only
these three string values: it is initialised to `"HEALTHY"` and only ever set
to `"UNHEALTHY"` (in `add_issue`) or `"WARNING"` (in `add_warning`). -/
inductive Status where
  | HEALTHY
  | WARNING
  | UNHEALTHY
deriving DecidableEq, Repr

/-- The `self.health_report` dictionary of `K8sHealthManager` (minus the
timestamp, which no claim touches): overall status plus the three ordered
message lists. -/
structure HealthReport where
  status : Status
  issues : List String
  warnings : List String
  actions : List String
deriving DecidableEq, Repr

/-- The report as built in `K8sHealthManager.__init__`: status `"HEALTHY"`,
all three lists empty. -/
def emptyReport : HealthReport :=
  { status := .HEALTHY, issues := [], warnings := [], actions := [] }

/-- `K8sHealthManager.add_issue`: append the message to `issues` and set
`overall_status` to `"UNHEALTHY"` unconditionally. -/
def add_issue (m : String) (r : HealthReport) : HealthReport :=
  { r with issues := r.issues ++ [m], status := .UNHEALTHY }

/-- `K8sHealthManager.add_warning`: append the message to `warnings`; set
`overall_status` to `"WARNING"` only if it is currently `"HEALTHY"`. -/
def add_warning (m : String) (r : HealthReport) : HealthReport :=
  { r with warnings := r.warnings ++ [m],
           status := if r.status = .HEALTHY then .WARNING else r.status }

/-- `K8sHealthManager.add_action`: append the message to `actions_taken`;
the status is not touched. -/
def add_action (m : String) (r : HealthReport) : HealthReport :=
  { r with actions := r.actions ++ [m] }

/-- A mutation step performed on the report after some point of a run:
one of the three mutator methods applied with some message. -/
inductive ReportOp where
  | issue (m : String)
  | warn (m : String)
  | act (m : String)
deriving DecidableEq, Repr

/-- Apply a sequence of mutator calls to the report, in order. -/
def applyOps (ops : List ReportOp) (r : HealthReport) : HealthReport :=
  ops.foldl (fun acc op =>
    match op with
    | .issue m => add_issue m acc
    | .warn m => add_warning m acc
    | .act m => add_action m acc) r

theorem applyOps_unhealthy (ops : List ReportOp) :
    ∀ r : HealthReport, r.status = .UNHEALTHY →
      (applyOps ops r).status = .UNHEALTHY := by
  induction ops with
  | nil => intro r h; simpa [applyOps] using h
  | cons op rest ih =>
      intro r h
      cases op with
      | issue m =>
          exact ih (add_issue m r) rfl
      | warn m =>
          apply ih (add_warning m r)
          simp [add_warning, h]
      | act m =>
          apply ih (add_action m r)
          simpa [add_action] using h

/-- **C2.** Overall status is monotonic non-improving within a run:
`add_issue` always sets the status to `UNHEALTHY`; `add_warning` sets the
status to `WARNING` exactly when the current status is `HEALTHY` and leaves
it unchanged otherwise; `add_action` never changes the status; and once the
status is `UNHEALTHY`, no later sequence of `add_warning` / `add_action`
(indeed of any mutator) calls changes it. -/
theorem C2_status_monotonic (r : HealthReport) (m : String)
    (ops : List ReportOp) :
    (add_issue m r).status = .UNHEALTHY ∧
    (r.status = .HEALTHY → (add_warning m r).status = .WARNING) ∧
    (r.status ≠ .HEALTHY → (add_warning m r).status = r.status) ∧
    (add_action m r).status = r.status ∧
    (r.status = .UNHEALTHY → (applyOps ops r).status = .UNHEALTHY) := by
  refine ⟨rfl, ?_, ?_, rfl, fun h => applyOps_unhealthy ops r h⟩
  · intro h; simp [add_warning, h]
  · intro h; simp [add_warning, h]

/-- Witness for C2 at concrete inputs: starting from the fresh report, an
issue forces `UNHEALTHY`, a warning on the fresh report gives `WARNING`, and
after an issue a warning/action sequence leaves the status `UNHEALTHY`. -/
theorem C2_status_monotonic_witness :
    (add_issue "i" emptyReport).status = .UNHEALTHY ∧
    (add_warning "w" emptyReport).status = .WARNING ∧
    (applyOps [.warn "w", .act "a"] (add_issue "i" emptyReport)).status
      = .UNHEALTHY := by
  refine ⟨(C2_status_monotonic emptyReport "i" []).1,
    (C2_status_monotonic emptyReport "w" []).2.1 rfl,
    (C2_status_monotonic (add_issue "i" emptyReport) "x"
      [.warn "w", .act "a"]).2.2.2.2 rfl⟩

/-! ## Node list and per-node up/down checks (`health-check.py`) -/

/-- `self.cluster_nodes` from `K8sHealthManager.__init__`. -/
def cluster_nodes : List String :=
  ["kube501.home", "kube502.home", "kube503.home", "kube511.home"]

/-- Lookup in a Python dict built by repeated assignment from an ordered row
list: the *last* binding of a key wins. -/
def pyLookup (l : List (String × Bool)) (k : String) : Option Bool :=
  l.foldl (fun acc p => if p.1 = k then some p.2 else acc) none

/-- `node_status[instance] = status == 1` over the result rows (the dict
comprehension loop of `check_node_health` / `check_container_metrics`),
with the row value already converted by `int(...)`. -/
def buildStatusMap (rows : List (String × Int)) : List (String × Bool) :=
  rows.map (fun p => (p.1, p.2 == 1))

/-- One iteration of the `for node in self.cluster_nodes` loop shared by
`check_node_health` and `check_container_metrics`: present-and-up leaves the
accumulator alone, present-and-down records an issue and clears the healthy
flag, absent records a warning and clears the healthy flag.  `down`/`noMet`
are the two flow-specific message builders. -/
def nodeStep (down noMet : String → String) (statusMap : List (String × Bool))
    (acc : Bool × HealthReport) (node : String) : Bool × HealthReport :=
  match pyLookup statusMap node with
  | some true => acc
  | some false => (false, add_issue (down node) acc.2)
  | none => (false, add_warning (noMet node) acc.2)

/-- The whole `for node in self.cluster_nodes` loop, starting from
`all_healthy = True` and the current report. -/
def nodeLoop (down noMet : String → String) (statusMap : List (String × Bool))
    (r : HealthReport) : Bool × HealthReport :=
  cluster_nodes.foldl (nodeStep down noMet statusMap) (true, r)

/-- The node loop of `K8sHealthManager.check_node_health` (job
`node_exporter`): its boolean result is the function's return value (the
subsequent `check_node_resources` call does not touch `all_healthy`). -/
def check_node_health_loop (statusMap : List (String × Bool))
    (r : HealthReport) : Bool × HealthReport :=
  nodeLoop (fun n => "Node exporter down on " ++ n)
    (fun n => "No metrics found for " ++ n) statusMap r

/-- The node loop of `K8sHealthManager.check_container_metrics` (job
`cadvisor`). -/
def check_container_metrics_loop (statusMap : List (String × Bool))
    (r : HealthReport) : Bool × HealthReport :=
  nodeLoop (fun n => "cAdvisor down on " ++ n)
    (fun n => "cAdvisor not reporting from " ++ n) statusMap r

theorem nodeStep_fst_le (down noMet : String → String)
    (statusMap : List (String × Bool)) (acc : Bool × HealthReport)
    (node : String) :
    (nodeStep down noMet statusMap acc node).1 = false ∨
      nodeStep down noMet statusMap acc node = acc := by
  unfold nodeStep
  cases h : pyLookup statusMap node with
  | none => left; rfl
  | some b => cases b with
    | false => left; rfl
    | true => right; rfl

theorem foldl_nodeStep_false (down noMet : String → String)
    (statusMap : List (String × Bool)) (nodes : List String) :
    ∀ r : HealthReport,
      (nodes.foldl (nodeStep down noMet statusMap) (false, r)).1 = false := by
  induction nodes with
  | nil => intro r; rfl
  | cons n rest ih =>
      intro r
      rcases nodeStep_fst_le down noMet statusMap (false, r) n with h | h
      · rcases hs : nodeStep down noMet statusMap (false, r) n with ⟨b, r'⟩
        rw [hs] at h; cases h
        simpa [List.foldl_cons, hs] using ih r'
      · simpa [List.foldl_cons, h] using ih r

theorem foldl_nodeStep_warn_mono (down noMet : String → String)
    (statusMap : List (String × Bool)) (nodes : List String) :
    ∀ (acc : Bool × HealthReport) (s : String), s ∈ acc.2.warnings →
      s ∈ (nodes.foldl (nodeStep down noMet statusMap) acc).2.warnings := by
  induction nodes with
  | nil => intro acc s hs; simpa using hs
  | cons n rest ih =>
      intro acc s hs
      rw [List.foldl_cons]
      apply ih
      unfold nodeStep
      cases pyLookup statusMap n with
      | none => simp only [add_warning, List.mem_append]; exact Or.inl hs
      | some b => cases b with
        | false => simpa [add_issue] using hs
        | true => exact hs

theorem foldl_nodeStep_issues (down noMet : String → String)
    (statusMap : List (String × Bool)) (nodes : List String) :
    ∀ acc : Bool × HealthReport, ∃ extra : List String,
      (nodes.foldl (nodeStep down noMet statusMap) acc).2.issues
        = acc.2.issues ++ extra ∧
      ∀ s ∈ extra, ∃ n', n' ∈ nodes ∧ s = down n' ∧
        pyLookup statusMap n' = some false := by
  induction nodes with
  | nil => intro acc; exact ⟨[], by simp, by simp⟩
  | cons n rest ih =>
      intro acc
      rw [List.foldl_cons]
      cases hl : pyLookup statusMap n with
      | none =>
          have hstep : nodeStep down noMet statusMap acc n
              = (false, add_warning (noMet n) acc.2) := by
            unfold nodeStep; rw [hl]
          rw [hstep]
          obtain ⟨extra, he, hm⟩ := ih (false, add_warning (noMet n) acc.2)
          refine ⟨extra, by simpa [add_warning] using he, ?_⟩
          intro s hs
          obtain ⟨n', hn', hsd, hlk⟩ := hm s hs
          exact ⟨n', List.mem_cons_of_mem _ hn', hsd, hlk⟩
      | some b => cases b with
        | true =>
            have hstep : nodeStep down noMet statusMap acc n = acc := by
              unfold nodeStep; rw [hl]
            rw [hstep]
            obtain ⟨extra, he, hm⟩ := ih acc
            refine ⟨extra, he, ?_⟩
            intro s hs
            obtain ⟨n', hn', hsd, hlk⟩ := hm s hs
            exact ⟨n', List.mem_cons_of_mem _ hn', hsd, hlk⟩
        | false =>
            have hstep : nodeStep down noMet statusMap acc n
                = (false, add_issue (down n) acc.2) := by
              unfold nodeStep; rw [hl]
            rw [hstep]
            obtain ⟨extra, he, hm⟩ := ih (false, add_issue (down n) acc.2)
            refine ⟨down n :: extra, ?_, ?_⟩
            · rw [he]; simp [add_issue]
            · intro s hs
              rcases List.mem_cons.mp hs with hs | hs
              · exact ⟨n, List.mem_cons_self n rest, hs, hl⟩
              · obtain ⟨n', hn', hsd, hlk⟩ := hm s hs
                exact ⟨n', List.mem_cons_of_mem _ hn', hsd, hlk⟩

theorem foldl_nodeStep_absent (down noMet : String → String)
    (statusMap : List (String × Bool)) (nodes : List String) :
    ∀ (acc : Bool × HealthReport) (node : String), node ∈ nodes →
      pyLookup statusMap node = none →
      (nodes.foldl (nodeStep down noMet statusMap) acc).1 = false ∧
      noMet node ∈ (nodes.foldl (nodeStep down noMet statusMap) acc).2.warnings := by
  induction nodes with
  | nil => intro acc node h; cases h
  | cons n rest ih =>
      intro acc node hmem habs
      rw [List.foldl_cons]
      rcases List.mem_cons.mp hmem with heq | hmem'
      · subst heq
        have hstep : nodeStep down noMet statusMap acc node
            = (false, add_warning (noMet node) acc.2) := by
          unfold nodeStep; rw [habs]
        rw [hstep]
        constructor
        · exact foldl_nodeStep_false down noMet statusMap rest _
        · exact foldl_nodeStep_warn_mono down noMet statusMap rest _ _
            (by simp [add_warning])
      · exact ih (nodeStep down noMet statusMap acc n) node hmem' habs

theorem string_append_left_cancel (p a b : String) (h : p ++ a = p ++ b) :
    a = b := by
  have hd : p.data ++ a.data = p.data ++ b.data := by
    simpa [String.data_append] using congrArg String.data h
  exact String.ext (List.append_cancel_left hd)

theorem nodeLoop_absent_spec (down noMet : String → String)
    (hinj : ∀ a b, down a = down b → a = b)
    (statusMap : List (String × Bool)) (r : HealthReport) (node : String)
    (hmem : node ∈ cluster_nodes) (habs : pyLookup statusMap node = none)
    (hfresh : down node ∉ r.issues) :
    (nodeLoop down noMet statusMap r).1 = false ∧
    noMet node ∈ (nodeLoop down noMet statusMap r).2.warnings ∧
    down node ∉ (nodeLoop down noMet statusMap r).2.issues := by
  obtain ⟨h1, h2⟩ := foldl_nodeStep_absent down noMet statusMap cluster_nodes
    (true, r) node hmem habs
  refine ⟨h1, h2, ?_⟩
  obtain ⟨extra, he, hm⟩ :=
    foldl_nodeStep_issues down noMet statusMap cluster_nodes (true, r)
  intro hc
  unfold nodeLoop at hc
  rw [he] at hc
  rcases List.mem_append.mp hc with hc | hc
  · exact hfresh hc
  · obtain ⟨n', _, hsd, hlk⟩ := hm _ hc
    have : node = n' := hinj node n' hsd
    rw [← this] at hlk
    rw [habs] at hlk
    cases hlk

/-- **C4.** A node present in `cluster_nodes` but absent from the up/down
query result set makes the check record a warning for it (`"No metrics found
for ..."` resp. `"cAdvisor not reporting from ..."`), never the corresponding
down issue, and the aggregate boolean of the check is `false`, in both the
node-exporter loop of `check_node_health` and the cAdvisor loop of
`check_container_metrics`. -/
theorem C4_absent_node_warning (statusMap : List (String × Bool))
    (r : HealthReport) (node : String)
    (hmem : node ∈ cluster_nodes) (habs : pyLookup statusMap node = none)
    (hfresh₁ : ("Node exporter down on " ++ node) ∉ r.issues)
    (hfresh₂ : ("cAdvisor down on " ++ node) ∉ r.issues) :
    ((check_node_health_loop statusMap r).1 = false ∧
      ("No metrics found for " ++ node)
        ∈ (check_node_health_loop statusMap r).2.warnings ∧
      ("Node exporter down on " ++ node)
        ∉ (check_node_health_loop statusMap r).2.issues) ∧
    ((check_container_metrics_loop statusMap r).1 = false ∧
      ("cAdvisor not reporting from " ++ node)
        ∈ (check_container_metrics_loop statusMap r).2.warnings ∧
      ("cAdvisor down on " ++ node)
        ∉ (check_container_metrics_loop statusMap r).2.issues) := by
  constructor
  · exact nodeLoop_absent_spec _ _
      (fun a b h => string_append_left_cancel "Node exporter down on " a b h)
      statusMap r node hmem habs hfresh₁
  · exact nodeLoop_absent_spec _ _
      (fun a b h => string_append_left_cancel "cAdvisor down on " a b h)
      statusMap r node hmem habs hfresh₂

/-- Witness for C4: on the empty result set, `kube501.home` has no metrics;
both checks return `false`, record the no-metrics warning, and record no
down issue. -/
theorem C4_absent_node_warning_witness :
    ((check_node_health_loop [] emptyReport).1 = false ∧
      ("No metrics found for " ++ "kube501.home")
        ∈ (check_node_health_loop [] emptyReport).2.warnings ∧
      ("Node exporter down on " ++ "kube501.home")
        ∉ (check_node_health_loop [] emptyReport).2.issues) ∧
    ((check_container_metrics_loop [] emptyReport).1 = false ∧
      ("cAdvisor not reporting from " ++ "kube501.home")
        ∈ (check_container_metrics_loop [] emptyReport).2.warnings ∧
      ("cAdvisor down on " ++ "kube501.home")
        ∉ (check_container_metrics_loop [] emptyReport).2.issues) :=
  C4_absent_node_warning [] emptyReport "kube501.home" (by decide) rfl
    (by simp [emptyReport]) (by simp [emptyReport])

/-! ## CPU usage classification (`check_node_resources`, `health-check.py`) -/

/-- Severity bucket assigned to one usage sample by the health-check flow. -/
inductive Severity where
  | issue
  | warning
  | ok
deriving DecidableEq, Repr

/-- Models Python's `f"{v:.1f}"` rendering of the usage value inside the
issue/warning message.  The claims settled here never depend on the digits
produced, only on the message prefix, so the exact rendering is immaterial;
it is kept injective like the real one is on distinct rounded values. -/
def fmt1 (v : ℚ) : String := toString v

/-- The CPU branch of `check_node_resources`: `if cpu_usage > 90` is an
issue, `elif cpu_usage > 75` a warning, otherwise neither. -/
def cpuClassify (p : ℚ) : Severity :=
  if p > 90 then .issue else if p > 75 then .warning else .ok

/-- Handling of one CPU sample row in `check_node_resources`: rows whose
instance is not in `self.cluster_nodes` are skipped; otherwise the usage is
classified and the corresponding mutator called. -/
def cpuSampleStep (r : HealthReport) (inst : String) (p : ℚ) : HealthReport :=
  if inst ∈ cluster_nodes then
    (if p > 90 then
      add_issue ("High CPU usage on " ++ inst ++ ": " ++ fmt1 p ++ "%") r
    else if p > 75 then
      add_warning ("Elevated CPU usage on " ++ inst ++ ": " ++ fmt1 p ++ "%") r
    else r)
  else r

/-- **C1, counterexample.** At exactly `p = 90.0` the health-check flow does
*not* record an issue: the classification is `warning` (since `90 > 90` is
false and `90 > 75` is true), and processing such a sample for a known node
leaves the issue list empty while appending to the warnings. -/
theorem C1_counterexample :
    cpuClassify 90 = Severity.warning ∧
    cpuClassify 90 ≠ Severity.issue ∧
    (cpuSampleStep emptyReport "kube501.home" 90).issues = [] ∧
    (cpuSampleStep emptyReport "kube501.home" 90).warnings ≠ [] := by
  refine ⟨?_, ?_, ?_, ?_⟩ <;> decide

/-- **C1, amended.** For every CPU usage percentage `p` classified by
`check_node_resources` for a node in the known-node list, the classification
is `issue` iff `p > 90` strictly (so `90.001` is an issue while both `90.0`
exactly and `89.999` are not; the two latter fall in the warning bucket),
and equivalently the sample handler extends the issue list iff `p > 90`. -/
theorem C1_cpu_issue_iff_strict (p : ℚ) (inst : String) (r : HealthReport)
    (hmem : inst ∈ cluster_nodes) :
    (cpuClassify p = Severity.issue ↔ 90 < p) ∧
    ((cpuSampleStep r inst p).issues ≠ r.issues ↔ 90 < p) := by
  constructor
  · unfold cpuClassify
    split_ifs with h1 h2 <;> simp_all
  · unfold cpuSampleStep
    rw [if_pos hmem]
    split_ifs with h1 h2
    · simp only [add_issue, gt_iff_lt] at h1 ⊢
      refine ⟨fun _ => h1, fun _ hc => ?_⟩
      have := congrArg List.length hc
      simp at this
    · simp [add_warning, h1]
    · simp [h1]

/-- Witness for C1 (amended) at `p = 91` on a known node: an issue is
classified and the issue list grows. -/
theorem C1_cpu_issue_iff_strict_witness :
    cpuClassify 91 = Severity.issue ∧
    (cpuSampleStep emptyReport "kube501.home" 91).issues
      ≠ emptyReport.issues :=
  ⟨(C1_cpu_issue_iff_strict 91 "kube501.home" emptyReport
      (by decide)).1.mpr (by norm_num),
   (C1_cpu_issue_iff_strict 91 "kube501.home" emptyReport
      (by decide)).2.mpr (by norm_num)⟩

/-! ## Exit-code mapping (`__main__` block of `health-check.py`) -/

/-- The exit mapping at the bottom of `health-check.py`: `sys.exit(1)` when
the final overall status is `"UNHEALTHY"`, `sys.exit(2)` when `"WARNING"`,
`sys.exit(0)` otherwise. -/
def exitCode (s : Status) : Nat :=
  if s = .UNHEALTHY then 1 else if s = .WARNING then 2 else 0

/-- **C5.** The process exit code of a completed health-check run is exactly
`HEALTHY ↦ 0`, `WARNING ↦ 2`, `UNHEALTHY ↦ 1`, and no value outside
`{0, 1, 2}` is ever produced. -/
theorem C5_exit_code_mapping :
    exitCode .HEALTHY = 0 ∧ exitCode .WARNING = 2 ∧
    exitCode .UNHEALTHY = 1 ∧
    ∀ s : Status, exitCode s = 0 ∨ exitCode s = 1 ∨ exitCode s = 2 := by
  refine ⟨rfl, rfl, rfl, ?_⟩
  intro s; cases s <;> simp [exitCode]

/-! ## Query clients (both scripts) and the API-server probe -/

/-- Outcome of one synchronous HTTP request, as observed by the calling
code: either the transport raised (`requests.RequestException` / timeout),
or a response with a status code and a (parsed) body came back.  No retry
is ever attempted: each wrapper consumes exactly one outcome. -/
inductive HttpOutcome (α : Type) where
  | err (msg : String)
  | resp (status : Nat) (body : α)
deriving DecidableEq, Repr

/-- The JSON shape relevant to the query endpoints:
`{"status": ..., "data": {"result": [...]}}` with the rows flattened to
(instance, value-string) pairs. -/
structure PromReply where
  status : String
  result : List (String × String)
deriving DecidableEq, Repr

/-- The sentinel returned by `ClusterHealthReporter.query_prometheus` on any
failure: `{"status": "error", "data": {"result": []}}`. -/
def errorSentinel : PromReply := { status := "error", result := [] }

/-- Models the text of the `requests.HTTPError` raised by
`response.raise_for_status()` for a 4xx/5xx status. -/
def raiseForStatusMsg (s : Nat) : String := "HTTP " ++ toString s

/-- `ClusterHealthReporter.query_prometheus`: one GET; on a transport error
or on `raise_for_status()` firing (status ≥ 400) the surrounding
`except Exception` prints one message to stderr (second component) and
returns the error sentinel; otherwise the parsed body is returned. -/
def reportQueryPrometheus (o : HttpOutcome PromReply) :
    PromReply × List String :=
  match o with
  | .err e => (errorSentinel, ["Error querying Prometheus: " ++ e])
  | .resp s body =>
      if 400 ≤ s then
        (errorSentinel, ["Error querying Prometheus: " ++ raiseForStatusMsg s])
      else (body, [])

/-- `K8sHealthManager.query_prometheus`: one GET guarded by
`except requests.RequestException`; a transport error calls
`self.add_issue(...)` and falls through to `return None`; a response with
status 200 returns the parsed body; any other status silently falls through
to `return None`. -/
def healthQueryPrometheus (o : HttpOutcome PromReply) (r : HealthReport) :
    Option PromReply × HealthReport :=
  match o with
  | .err e => (none, add_issue ("Prometheus query failed: " ++ e) r)
  | .resp s body => if s = 200 then (some body, r) else (none, r)

/-- **C3, counterexample.** In the health-check flow, a non-success HTTP
status (here 500) makes `query_prometheus` return `None` with the report
completely unchanged: no descriptive message is logged to any channel, and
the returned value is not an empty result set but the absence of one.  This
refutes the claim that on *any* non-success status the caller logs a
descriptive message and receives an empty result set. -/
theorem C3_counterexample :
    healthQueryPrometheus (.resp 500 { status := "success", result := [] })
      emptyReport = (none, emptyReport) := by
  decide

/-- **C3, amended.** Neither query client ever raises and neither retries.
In the report flow the claim holds as stated: a transport error or a status
≥ 400 yields the explicit empty-result sentinel plus one stderr message.
In the health-check flow the "no data" result is `None` rather than an
empty result set; a transport error is recorded as a critical issue (not
merely logged), while a non-200 status returns `None` silently with no
message. -/
theorem C3_query_fail_soft (e : String) (body : PromReply) (s : Nat)
    (r : HealthReport) :
    reportQueryPrometheus (.err e)
      = (errorSentinel, ["Error querying Prometheus: " ++ e]) ∧
    (400 ≤ s → reportQueryPrometheus (.resp s body)
      = (errorSentinel,
         ["Error querying Prometheus: " ++ raiseForStatusMsg s])) ∧
    errorSentinel.result = [] ∧
    healthQueryPrometheus (.err e) r
      = (none, add_issue ("Prometheus query failed: " ++ e) r) ∧
    (s ≠ 200 → healthQueryPrometheus (.resp s body) r = (none, r)) := by
  refine ⟨rfl, ?_, rfl, rfl, ?_⟩
  · intro h; simp [reportQueryPrometheus, h]
  · intro h; simp [healthQueryPrometheus, h]

/-- Witness for C3 (amended) at a concrete 500 response and a concrete
transport error. -/
theorem C3_query_fail_soft_witness :
    reportQueryPrometheus (.resp 500 errorSentinel)
      = (errorSentinel,
         ["Error querying Prometheus: " ++ raiseForStatusMsg 500]) ∧
    healthQueryPrometheus (.resp 500 errorSentinel) emptyReport
      = (none, emptyReport) :=
  ⟨(C3_query_fail_soft "t" errorSentinel 500 emptyReport).2.1 (by norm_num),
   (C3_query_fail_soft "t" errorSentinel 500 emptyReport).2.2.2.2
     (by norm_num)⟩

/-- The `verify=False` keyword passed to `requests.get` in
`check_kubernetes_api`: TLS certificate verification is disabled. -/
def k8s_api_verify_tls : Bool := false

/-- Python `str.strip()` with no argument: drop leading and trailing
whitespace code points. -/
def pyStrip (s : String) : String :=
  String.mk
    (((s.data.dropWhile Char.isWhitespace).reverse.dropWhile
        Char.isWhitespace).reverse)

/-- `K8sHealthManager.check_kubernetes_api`: GET `{api}/healthz` with
`verify=False, timeout=5`; healthy exactly when the status is 200 *and* the
`strip()`-ed body equals `'ok'`; every other response records an issue with the
status code, and a transport error records an issue with the exception
text. -/
def check_kubernetes_api (o : HttpOutcome String) (r : HealthReport) :
    Bool × HealthReport :=
  match o with
  | .resp s body =>
      if s = 200 ∧ pyStrip body = "ok" then (true, r)
      else (false,
        add_issue ("API server health check failed: " ++ toString s) r)
  | .err e => (false, add_issue ("Cannot reach Kubernetes API: " ++ e) r)

/-- **C10.** The API-server probe runs with TLS verification disabled and
records an issue (forcing `UNHEALTHY`) in every case except a 200 response
whose stripped body is exactly `'ok'`; transport failures are likewise
recorded as issues, not merely logged. -/
theorem C10_api_healthz (s : Nat) (body e : String) (r : HealthReport) :
    k8s_api_verify_tls = false ∧
    (s = 200 ∧ pyStrip body = "ok" →
      check_kubernetes_api (.resp s body) r = (true, r)) ∧
    (¬(s = 200 ∧ pyStrip body = "ok") →
      (check_kubernetes_api (.resp s body) r).2.status = .UNHEALTHY ∧
      (check_kubernetes_api (.resp s body) r).2.issues
        = r.issues ++ ["API server health check failed: " ++ toString s]) ∧
    (check_kubernetes_api (.err e) r).2.status = .UNHEALTHY ∧
    (check_kubernetes_api (.err e) r).2.issues
      = r.issues ++ ["Cannot reach Kubernetes API: " ++ e] := by
  refine ⟨rfl, ?_, ?_, rfl, rfl⟩
  · intro h; simp [check_kubernetes_api, h]
  · intro h; simp [check_kubernetes_api, h, add_issue]

/-- Witness for C10: a 200/`"ok\n"` response passes (strip removes the
newline), while a 500 response records the issue and forces `UNHEALTHY`. -/
theorem C10_api_healthz_witness :
    check_kubernetes_api (.resp 200 "ok\n") emptyReport
      = (true, emptyReport) ∧
    (check_kubernetes_api (.resp 500 "err") emptyReport).2.status
      = .UNHEALTHY :=
  ⟨(C10_api_healthz 200 "ok\n" "e" emptyReport).2.1 ⟨rfl, by decide⟩,
   ((C10_api_healthz 500 "err" "e" emptyReport).2.2.1 (by decide)).1⟩

/-! ## Webhook sink (`ClusterHealthReporter.send_to_discord`) -/

/-- The truncation step of `send_to_discord`:
`content = report if len(report) < 1990 else report[:1990] + "\n... (truncated)"`.
Python strings are sequences of code points, so `len`/`[:1990]` are the
list length/take of the code-point list. -/
def discordContent (report : List Char) : List Char :=
  if report.length < 1990 then report
  else report.take 1990 ++ ("\n... (truncated)").data

/-- The payload wrapping of `send_to_discord`:
`{"content": f"```\n{content}\n```"}` (only the content string is
modelled). -/
def discordPayload (content : List Char) : List Char :=
  ("```\n").data ++ content ++ ("\n```").data

/-- `ClusterHealthReporter.send_to_discord` up to the POST: if the webhook
URL is empty (falsy) the send is skipped and nothing is produced; otherwise
the truncated, code-block-wrapped content is the POSTed body. -/
def send_to_discord (webhook_url : String) (report : List Char) :
    Option (List Char) :=
  if webhook_url = "" then none
  else some (discordPayload (discordContent report))

/-- **C6, counterexample.** A report of length exactly 1990 is *not* left
unmodified, although it is "not longer than 1990 characters": the code
truncates whenever `len(report) < 1990` fails, so at exactly 1990 the
truncation suffix is appended. -/
theorem C6_counterexample :
    (List.replicate 1990 'a').length ≤ 1990 ∧
    discordContent (List.replicate 1990 'a') ≠ List.replicate 1990 'a' := by
  have hrep : (List.replicate 1990 'a').length = 1990 := by
    rw [List.length_replicate]
  constructor
  · omega
  · have hnot : ¬ ((List.replicate 1990 'a').length < 1990) := by omega
    unfold discordContent
    rw [if_neg hnot]
    intro h
    have hlen := congrArg List.length h
    have hsuf : ("\n... (truncated)").data.length = 16 := rfl
    rw [List.length_append, List.length_take, hsuf, hrep] at hlen
    omega

/-- **C6, amended.** The webhook sink leaves content unmodified when it is
*strictly shorter than* 1990 characters; when its length is ≥ 1990 (so in
particular at exactly 1990) it truncates to the first 1990 characters plus
the fixed suffix `"\n... (truncated)"` before wrapping in the code-block
payload; with no webhook URL configured the send is skipped without
error. -/
theorem C6_discord_truncation (w : String) (report : List Char) :
    (report.length < 1990 → discordContent report = report) ∧
    (1990 ≤ report.length →
      discordContent report
        = report.take 1990 ++ ("\n... (truncated)").data) ∧
    send_to_discord "" report = none ∧
    (w ≠ "" → send_to_discord w report
      = some (discordPayload (discordContent report))) := by
  refine ⟨?_, ?_, by simp [send_to_discord], ?_⟩
  · intro h; simp [discordContent, h]
  · intro h
    unfold discordContent
    rw [if_neg (by omega)]
  · intro h; simp [send_to_discord, h]

/-- Witness for C6 (amended): a two-character report passes through
unmodified and a nonempty webhook produces the wrapped payload. -/
theorem C6_discord_truncation_witness :
    discordContent ['h', 'i'] = ['h', 'i'] ∧
    send_to_discord "hook" ['h', 'i']
      = some (discordPayload (discordContent ['h', 'i'])) :=
  ⟨(C6_discord_truncation "hook" ['h', 'i']).1 (by decide),
   (C6_discord_truncation "hook" ['h', 'i']).2.2.2 (by decide)⟩

/-! ## Up/down classification of one sample (both flows).

The metrics backend serialises the value of an instant-query row as a
decimal string (the `up` metric takes integer values, rendered e.g. `"1"`).
`promFormat` models that wire encoding; `pyInt` models Python's `int()` on
such strings.  The report flow compares the raw wire string with the
literal `'1'`; the health-check flow converts with `int()` and compares
with the integer 1. -/

/-- Decimal digit character of a digit value. -/
def digitCh : Nat → Char
  | 0 => '0' | 1 => '1' | 2 => '2' | 3 => '3' | 4 => '4'
  | 5 => '5' | 6 => '6' | 7 => '7' | 8 => '8' | _ => '9'

/-- Value of a decimal digit character. -/
def digitVal (c : Char) : Nat := c.toNat - 48

/-- Decimal digits of `n`, least-significant first, with a structural fuel
argument (any fuel > `n` suffices, since `n / 10` strictly decreases). -/
def natDecRevAux : Nat → Nat → List Char
  | 0, _ => []
  | fuel + 1, n =>
      if n < 10 then [digitCh n]
      else digitCh (n % 10) :: natDecRevAux fuel (n / 10)

/-- Decimal digits of `n`, least-significant first. -/
def natDecRev (n : Nat) : List Char := natDecRevAux (n + 1) n

/-- The backend's decimal rendering of an integer-valued sample. -/
def promFormat (v : Int) : String :=
  match v with
  | .ofNat n => String.mk ((natDecRev n).reverse)
  | .negSucc m => String.mk ('-' :: (natDecRev (m + 1)).reverse)

/-- Numeric value of a digit list, least-significant first. -/
def parseRevDigits : List Char → Nat
  | [] => 0
  | c :: cs => digitVal c + 10 * parseRevDigits cs

/-- Models Python `int()` on the well-formed decimal integer strings the
backend produces: optional leading minus, then decimal digits. -/
def pyInt (s : String) : Int :=
  if s.data.head? = some '-' then
    -(parseRevDigits s.data.tail.reverse : Int)
  else (parseRevDigits s.data.reverse : Int)

/-- `status = int(metric['value'][1]); ... = status == 1`: the up/down
derivation of `check_node_health` (identical in `check_container_metrics`),
applied to one value string. -/
def healthUpClassify (s : String) : Bool := pyInt s == 1

/-- `"UP" if item['value'][1] == '1' else "DOWN"`: the up/down derivation of
`ClusterHealthReporter.get_node_status`, comparing the raw value string with
the literal `'1'`. -/
def reportUpStatus (s : String) : String :=
  if s = "1" then "UP" else "DOWN"

theorem digitVal_digitCh (k : Nat) (h : k < 10) : digitVal (digitCh k) = k := by
  interval_cases k <;> rfl

theorem digitCh_ne_dash (k : Nat) : digitCh k ≠ '-' := by
  rcases k with _|_|_|_|_|_|_|_|_|k <;> simp [digitCh]

theorem natDecRevAux_mem_digit (fuel : Nat) :
    ∀ n c, c ∈ natDecRevAux fuel n → ∃ k, c = digitCh k := by
  induction fuel with
  | zero => intro n c h; simp [natDecRevAux] at h
  | succ f ih =>
      intro n c h
      unfold natDecRevAux at h
      split_ifs at h with h10
      · simp at h; exact ⟨n, h⟩
      · rcases List.mem_cons.mp h with h | h
        · exact ⟨n % 10, h⟩
        · exact ih _ _ h

theorem parse_natDecRevAux (fuel : Nat) :
    ∀ n, n < fuel → parseRevDigits (natDecRevAux fuel n) = n := by
  induction fuel with
  | zero => intro n h; omega
  | succ f ih =>
      intro n h
      unfold natDecRevAux
      split_ifs with h10
      · simp [parseRevDigits, digitVal_digitCh n h10]
      · simp only [parseRevDigits]
        rw [ih (n / 10) (by omega), digitVal_digitCh (n % 10) (by omega)]
        omega

theorem parse_natDecRev (n : Nat) : parseRevDigits (natDecRev n) = n :=
  parse_natDecRevAux (n + 1) n (by omega)

theorem natDecRev_head_ne (n : Nat) :
    ((natDecRev n).reverse).head? ≠ some '-' := by
  intro h
  have hmem : '-' ∈ (natDecRev n).reverse := List.mem_of_mem_head? (by rw [h]; rfl)
  have hmem' : '-' ∈ natDecRev n := List.mem_reverse.mp hmem
  obtain ⟨k, hk⟩ := natDecRevAux_mem_digit (n + 1) n '-' hmem'
  exact digitCh_ne_dash k hk.symm

theorem pyInt_mk_of_ne (l : List Char) (h : l.head? ≠ some '-') :
    pyInt (String.mk l) = (parseRevDigits l.reverse : Int) := by
  unfold pyInt
  rw [if_neg (by exact h)]

theorem pyInt_mk_neg (l : List Char) :
    pyInt (String.mk ('-' :: l)) = -(parseRevDigits l.reverse : Int) := by
  unfold pyInt
  have hc : (String.mk ('-' :: l)).data.head? = some '-' := rfl
  rw [if_pos hc]
  rfl

theorem pyInt_promFormat (v : Int) : pyInt (promFormat v) = v := by
  cases v with
  | ofNat n =>
      have h := pyInt_mk_of_ne ((natDecRev n).reverse) (natDecRev_head_ne n)
      calc pyInt (promFormat (Int.ofNat n))
          = (parseRevDigits (natDecRev n).reverse.reverse : Int) := h
        _ = Int.ofNat n := by
            rw [List.reverse_reverse, parse_natDecRev n]; rfl
  | negSucc m =>
      calc pyInt (promFormat (Int.negSucc m))
          = -(parseRevDigits (natDecRev (m + 1)).reverse.reverse : Int) :=
            pyInt_mk_neg ((natDecRev (m + 1)).reverse)
        _ = Int.negSucc m := by
            rw [List.reverse_reverse, parse_natDecRev (m + 1),
              Int.negSucc_eq]
            push_cast
            ring

theorem promFormat_eq_one (v : Int) : promFormat v = "1" ↔ v = 1 := by
  constructor
  · intro h
    have hrt := pyInt_promFormat v
    rw [h] at hrt
    have h1 : pyInt "1" = 1 := by decide
    omega
  · intro h; subst h; decide

/-- **C7.** For every integer-valued up/down metric sample (rendered on the
wire in the backend's decimal encoding), the sample is classified as up
exactly when its value is 1 — `"UP"`-vs-`"DOWN"` in the report flow's
`get_node_status` (which compares the wire string with `'1'`) and
`int(...) == 1` in the health-check flow's node-status derivation — and any
other value is classified as down, in both flows. -/
theorem C7_up_iff_value_one (v : Int) :
    (reportUpStatus (promFormat v) = "UP" ↔ v = 1) ∧
    (healthUpClassify (promFormat v) = true ↔ v = 1) := by
  constructor
  · unfold reportUpStatus
    split_ifs with h
    · simp [(promFormat_eq_one v).mp h]
    · constructor
      · intro hup; exact absurd hup (by decide)
      · intro h1; exact absurd ((promFormat_eq_one v).mpr h1) h
  · unfold healthUpClassify
    rw [pyInt_promFormat v]
    simp

/-- Witness for C7: value 1 renders as up in the report flow, value 0 is not
up in the health-check flow. -/
theorem C7_up_iff_value_one_witness :
    reportUpStatus (promFormat 1) = "UP" ∧
    healthUpClassify (promFormat 0) ≠ true :=
  ⟨(C7_up_iff_value_one 1).1.mpr rfl,
   fun h => absurd ((C7_up_iff_value_one 0).2.mp h) (by decide)⟩

/-! ## Report renderers (`generate_health_report.py`) -/

/-- One element of the list returned by `get_node_status`:
`{"node": ..., "status": "UP" | "DOWN"}`. -/
structure NodeStatusRow where
  node : String
  status : String
deriving DecidableEq, Repr

/-- One `{'node': ..., 'value': ...}` entry of `get_resource_usage`. -/
structure UsageRow where
  node : String
  value : ℚ
deriving DecidableEq, Repr

/-- The `usage` dict of `get_resource_usage`; iterated in insertion order
`cpu`, `memory`, `disk`. -/
structure Usage where
  cpu : List UsageRow
  memory : List UsageRow
  disk : List UsageRow
deriving DecidableEq, Repr

/-- The pod-phase counts of `get_pod_status`. -/
structure PodCounts where
  running : Nat
  pending : Nat
  failed : Nat
  total : Nat
deriving DecidableEq, Repr

/-- One firing alert as retained by `get_alerts`. -/
structure AlertRow where
  name : String
  severity : String
  summary : String
  since : String
deriving DecidableEq, Repr

/-- `"=" * 60`, the banner line. -/
def eqBanner : String := String.mk (List.replicate 60 '=')

/-- `status_emoji = "✅" if node['status'] == "UP" else "❌"`. -/
def statusEmoji (status : String) : String :=
  if status = "UP" then "✅" else "❌"

/-- `emoji = "🟢" if value < 70 else "🟡" if value < 85 else "🔴"`. -/
def usageEmoji (v : ℚ) : String :=
  if v < 70 then "🟢" else if v < 85 then "🟡" else "🔴"

/-- The severity-to-marker dict lookup with default `'⚪'` in
`generate_daily_report`. -/
def severityEmoji (sev : String) : String :=
  if sev = "critical" then "🔴"
  else if sev = "warning" then "🟡"
  else if sev = "info" then "🔵"
  else "⚪"

/-- One `### METRIC` block of the resource-usage section: header, one line
per row, then a blank line. -/
def usageSection (metricName : String) (rows : List UsageRow) : List String :=
  ["### " ++ metricName]
  ++ rows.map (fun u =>
      "  " ++ usageEmoji u.value ++ " " ++ u.node ++ ": " ++ fmt1 u.value ++ "%")
  ++ [""]

/-- The line list built by `ClusterHealthReporter.generate_daily_report`
(before the final `"\n".join`), as a function of the injected constructor
timestamp `ts` (`self.timestamp`) and the gathered facts.  Section order and
every literal follow the source. -/
def dailyReportLines (ts : String) (nodes : List NodeStatusRow)
    (usage : Usage) (pods : PodCounts) (alerts : List AlertRow) :
    List String :=
  [eqBanner,
   "Kubernetes Cluster Health Report - Daily",
   "Generated: " ++ ts,
   eqBanner,
   "",
   "## Node Status"]
  ++ nodes.map (fun n =>
      "  " ++ statusEmoji n.status ++ " " ++ n.node ++ ": " ++ n.status)
  ++ ["",
      "## Resource Usage"]
  ++ usageSection "CPU" usage.cpu
  ++ usageSection "MEMORY" usage.memory
  ++ usageSection "DISK" usage.disk
  ++ ["## Pod Status",
      "  Total: " ++ toString pods.total,
      "  Running: " ++ toString pods.running,
      "  Pending: " ++ toString pods.pending,
      "  Failed: " ++ toString pods.failed,
      "",
      "## Active Alerts"]
  ++ (if alerts.isEmpty then ["  ✅ No active alerts"]
      else alerts.map (fun a =>
        "  " ++ severityEmoji a.severity ++ " " ++ a.name ++ ": " ++ a.summary))
  ++ ["",
      eqBanner]

/-- `"\n".join(report)`. -/
def joinLines (lines : List String) : String := String.intercalate "\n" lines

/-- `generate_daily_report` as a function of the injected timestamp and the
gathered facts. -/
def generateDailyReport (ts : String) (nodes : List NodeStatusRow)
    (usage : Usage) (pods : PodCounts) (alerts : List AlertRow) : String :=
  joinLines (dailyReportLines ts nodes usage pods alerts)

/-- Models `strftime('%Y-%m-%d')` applied to a clock value measured in whole
days: distinct dates render as distinct strings; sub-day resolution is not
represented since the format drops it. -/
def fmtDate (day : Nat) : String := toString day

/-- The line list of `generate_weekly_report`: the function reads the clock
itself (`end_time = datetime.now()`, `start_time = end_time -
timedelta(days=7)`), renders the period banner from it, and embeds a full
daily report (one multi-line string element, exactly as the source appends
`self.generate_daily_report()`), then the static weekly-summary block. -/
def weeklyReportLines (now : Nat) (ts : String) (nodes : List NodeStatusRow)
    (usage : Usage) (pods : PodCounts) (alerts : List AlertRow) :
    List String :=
  [eqBanner,
   "Kubernetes Cluster Health Report - Weekly",
   "Period: " ++ fmtDate (now - 7) ++ " to " ++ fmtDate now,
   eqBanner,
   "",
   generateDailyReport ts nodes usage pods alerts,
   "",
   "## Weekly Summary",
   "  - Average uptime: Check Prometheus for detailed metrics",
   "  - Resource trends: See Grafana dashboards",
   "  - Incident summary: Review alert history",
   "",
   eqBanner]

/-- `generate_weekly_report` as a function of the clock it reads and the
injected timestamp/facts. -/
def generateWeeklyReport (now : Nat) (ts : String)
    (nodes : List NodeStatusRow) (usage : Usage) (pods : PodCounts)
    (alerts : List AlertRow) : String :=
  joinLines (weeklyReportLines now ts nodes usage pods alerts)

/-- The `--type` dispatch of `main()`: `daily` renders the daily report
(which never reads the clock), anything else the weekly one (which does). -/
def runReport (clock : Nat) (typ ts : String) (nodes : List NodeStatusRow)
    (usage : Usage) (pods : PodCounts) (alerts : List AlertRow) : String :=
  if typ = "daily" then generateDailyReport ts nodes usage pods alerts
  else generateWeeklyReport clock ts nodes usage pods alerts

set_option maxHeartbeats 2000000 in
/-- **C8, counterexample.** With pod counts `{running: 8, pending: 1,
failed: 0, total: 9}` the daily report does *not* contain the four count
lines in the order running, pending, failed, total: that sequence of lines
is not even a subsequence of the rendered lines, because the code appends
`Total` first. -/
theorem C8_counterexample :
    ¬ List.Sublist ["  Running: 8", "  Pending: 1", "  Failed: 0", "  Total: 9"]
      (dailyReportLines "T" []
        { cpu := [], memory := [], disk := [] }
        { running := 8, pending := 1, failed := 0, total := 9 } []) := by
  decide

set_option maxHeartbeats 2000000 in
/-- **C8, amended.** With pod counts `{running: 8, pending: 1, failed: 0,
total: 9}` the daily report's pod-status section renders exactly four
literal count lines with those exact values, in the order total, running,
pending, failed (shown here inside the full rendered line list). -/
theorem C8_pod_count_lines :
    dailyReportLines "T" []
      { cpu := [], memory := [], disk := [] }
      { running := 8, pending := 1, failed := 0, total := 9 } []
    = [eqBanner,
       "Kubernetes Cluster Health Report - Daily",
       "Generated: T",
       eqBanner,
       "",
       "## Node Status",
       "",
       "## Resource Usage",
       "### CPU",
       "",
       "### MEMORY",
       "",
       "### DISK",
       "",
       "## Pod Status",
       "  Total: 9",
       "  Running: 8",
       "  Pending: 1",
       "  Failed: 0",
       "",
       "## Active Alerts",
       "  ✅ No active alerts",
       "",
       eqBanner] := by
  decide

set_option maxHeartbeats 2000000 in
/-- **C9, counterexample.** The weekly renderer is *not* a function of the
fact set and the injected timestamp alone: it reads the clock inside
(`end_time = datetime.now()` in `generate_weekly_report`), so two renderings
of the identical fact set with the identical injected timestamp, one day
apart, produce different bytes (the `Period:` line differs). -/
theorem C9_counterexample :
    generateWeeklyReport 7 "T" []
        { cpu := [], memory := [], disk := [] }
        { running := 0, pending := 0, failed := 0, total := 0 } []
      ≠ generateWeeklyReport 8 "T" []
        { cpu := [], memory := [], disk := [] }
        { running := 0, pending := 0, failed := 0, total := 0 } [] := by
  decide

/-- **C9, amended.** Rendering is a deterministic function of its inputs,
but the clock is one of the weekly renderer's inputs: the daily variant's
output depends only on the injected constructor timestamp and the fact set
(it is invariant under any change of the ambient clock), while the weekly
variant additionally depends on the clock it reads inside, and renders
byte-identically exactly when the two formatted period dates it derives from
that clock agree. -/
theorem C9_render_determinism (c₁ c₂ : Nat) (ts : String)
    (nodes : List NodeStatusRow) (usage : Usage) (pods : PodCounts)
    (alerts : List AlertRow) :
    runReport c₁ "daily" ts nodes usage pods alerts
      = runReport c₂ "daily" ts nodes usage pods alerts ∧
    (fmtDate (c₁ - 7) = fmtDate (c₂ - 7) → fmtDate c₁ = fmtDate c₂ →
      runReport c₁ "weekly" ts nodes usage pods alerts
        = runReport c₂ "weekly" ts nodes usage pods alerts) := by
  have hdd : ("daily" : String) = "daily" := rfl
  have hwd : ("weekly" : String) ≠ "daily" := by decide
  constructor
  · unfold runReport
    rw [if_pos hdd, if_pos hdd]
  · intro h1 h2
    unfold runReport
    rw [if_neg hwd, if_neg hwd]
    unfold generateWeeklyReport weeklyReportLines
    rw [h1, h2]

/-- Witness for C9 (amended): daily output at two different clock values is
identical; weekly output at one fixed clock value is identical to itself via
the theorem with its date hypotheses discharged. -/
theorem C9_render_determinism_witness :
    runReport 3 "daily" "T" [] { cpu := [], memory := [], disk := [] }
        { running := 0, pending := 0, failed := 0, total := 0 } []
      = runReport 10 "daily" "T" [] { cpu := [], memory := [], disk := [] }
        { running := 0, pending := 0, failed := 0, total := 0 } [] ∧
    runReport 10 "weekly" "T" [] { cpu := [], memory := [], disk := [] }
        { running := 0, pending := 0, failed := 0, total := 0 } []
      = runReport 10 "weekly" "T" [] { cpu := [], memory := [], disk := [] }
        { running := 0, pending := 0, failed := 0, total := 0 } [] :=
  ⟨(C9_render_determinism 3 10 "T" [] { cpu := [], memory := [], disk := [] }
      { running := 0, pending := 0, failed := 0, total := 0 } []).1,
   (C9_render_determinism 10 10 "T" [] { cpu := [], memory := [], disk := [] }
      { running := 0, pending := 0, failed := 0, total := 0 } []).2 rfl rfl⟩
